import Mathlib

/-!
Verification development for the rs-usbtmc USBTMC host client.

The repository's orchestration layer (`src/lib.rs`: `UsbtmcClient::connect`,
`command`, `query`, `query_raw`, `set_timeout` and the `Drop` impl) is
embedded directly from the source.  The leaf modules it calls
(`types::BTag`, `communication::bulk`, `communication::control`) are part of
the repository but their files are not available here; where a definition
embeds one of them it is modelled from the specification's description and
its doc comment says so.

Byte sequences are modelled as `List Nat` (each element a byte value),
machine counters as `Nat`, and strings as lists of Unicode code points.
-/

namespace Usbtmc

/-- Error taxonomy of the library (spec section 7 / the `error` module). -/
inductive Error where
  | deviceNotFound
  | unsupportedDevice
  | transportError
  | timeout
  | deviceBusy
  | tagMismatch
  | protocolError
  | encodingError
  | payloadTooLarge
deriving DecidableEq, Repr

/-- Modelled from the spec: the sequence tag generator `BTag`
(`types` module, not available under `src/`): an integer counter restricted
to the range 1..255. -/
structure BTag where
  curr : Nat
deriving DecidableEq, Repr

/-- Modelled from the spec: the generator starts at 1 (`BTag::new`). -/
def BTag.new : BTag := ⟨1⟩

/-- Modelled from the spec: on each call return the current value then
increment; if incrementing would exceed 255, wrap to 1. -/
def BTag.next (b : BTag) : Nat × BTag :=
  (b.curr, ⟨if b.curr = 255 then 1 else b.curr + 1⟩)

/-- Generator state after `n` calls to `next`, starting from `BTag.new`. -/
def tagStateAfter : Nat → BTag
  | 0 => BTag.new
  | n + 1 => ((tagStateAfter n).next).2

/-- The value returned by the `(n+1)`-st call to the generator (0-indexed). -/
def nthTag (n : Nat) : Nat := ((tagStateAfter n).next).1

theorem tagStateAfter_bounds (n : Nat) :
    1 ≤ (tagStateAfter n).curr ∧ (tagStateAfter n).curr ≤ 255 := by
  induction n with
  | zero => simp [tagStateAfter, BTag.new]
  | succ n ih =>
    obtain ⟨h1, h2⟩ := ih
    by_cases h : (tagStateAfter n).curr = 255
    · simp [tagStateAfter, BTag.next, h]
    · simp [tagStateAfter, BTag.next, h]
      omega

/-- C3: every value returned by the sequence tag generator lies in [1,255],
0 is never returned, the first value is 1, the call after the one returning
255 returns 1, and otherwise values are strictly sequential. -/
theorem btag_sequence (n : Nat) :
    1 ≤ nthTag n ∧ nthTag n ≤ 255 ∧ nthTag n ≠ 0 ∧ nthTag 0 = 1 ∧
    (nthTag n = 255 → nthTag (n + 1) = 1) ∧
    (nthTag n < 255 → nthTag (n + 1) = nthTag n + 1) := by
  obtain ⟨h1, h2⟩ := tagStateAfter_bounds n
  refine ⟨?_, ?_, ?_, ?_, ?_, ?_⟩
  · simpa [nthTag, BTag.next] using h1
  · simpa [nthTag, BTag.next] using h2
  · simp only [nthTag, BTag.next]; omega
  · simp [nthTag, tagStateAfter, BTag.new, BTag.next]
  · intro h
    have hc : (tagStateAfter n).curr = 255 := by simpa [nthTag, BTag.next] using h
    simp [nthTag, tagStateAfter, BTag.next, hc]
  · intro h
    have hc : (tagStateAfter n).curr < 255 := by simpa [nthTag, BTag.next] using h
    have hc' : ¬ (tagStateAfter n).curr = 255 := by omega
    simp [nthTag, tagStateAfter, BTag.next, hc']

/-- A 32-bit value laid out as four little-endian bytes (the header's
TransferSize field). -/
def toLE32 (n : Nat) : List Nat :=
  [n % 256, n / 256 % 256, n / 65536 % 256, n / 16777216 % 256]

/-- Reading four little-endian bytes back as one value. -/
def fromLE32 : List Nat → Nat
  | [a, b, c, d] => a + 256 * b + 65536 * c + 16777216 * d
  | _ => 0

/-- Number of zero bytes appended after the payload so the whole frame
reaches the next 4-byte boundary. -/
def padLen (n : Nat) : Nat := (4 - n % 4) % 4

/-- Modelled from the spec: the DEV_DEP_MSG_OUT frame encoder
(`communication::bulk`, not available under `src/`): byte 0 = MsgID (1),
byte 1 = bTag, byte 2 = bTagInverse (255 - bTag), byte 3 = reserved,
bytes 4-7 = TransferSize little-endian, byte 8 = bmTransferAttributes with
the EOM bit set (the whole payload goes out as one logical message),
bytes 9-11 = reserved, then the payload, then zero padding to the next
4-byte boundary. -/
def devDepMsgOut (tag : Nat) (payload : List Nat) : List Nat :=
  [1, tag, 255 - tag, 0] ++ toLE32 payload.length ++ [1, 0, 0, 0]
    ++ payload ++ List.replicate (padLen payload.length) 0

/-- Capability flags reported by GET_CAPABILITIES, as far as the framing
layer reads them (spec sections 3 and 4.2): term-char support plus the
listen-only / talk-only interface bits. -/
structure Capabilities where
  termChar : Bool
  listenOnly : Bool
  talkOnly : Bool
deriving DecidableEq, Repr

/-- Modelled from the spec: the REQUEST_DEV_DEP_MSG_IN frame encoder
(`communication::bulk`, not available under `src/`): same header shape with
MsgID 2, TransferSize = requested maximum chunk size, byte 8 bit 0 =
term-char-enabled (only set when the capabilities report support), byte 9 =
the term character value when enabled, bytes 10-11 reserved. -/
def requestDevDepMsgIn (tag : Nat) (size : Nat) (tc : Option Nat)
    (caps : Capabilities) : List Nat :=
  let enabled := caps.termChar && tc.isSome
  [2, tag, 255 - tag, 0] ++ toLE32 size ++
    [if enabled then 1 else 0, if enabled then tc.getD 0 else 0, 0, 0]

theorem fromLE32_toLE32 (n : Nat) (h : n < 4294967296) :
    fromLE32 (toLE32 n) = n := by
  simp only [toLE32, fromLE32]
  omega

/-- C2: for every payload of length L, the encoded DEV_DEP_MSG_OUT frame has
byte 0 = 1 (MsgID), byte 1 = bTag, byte 2 = 255 - bTag, byte 3 = 0,
bytes 4-7 = L as a little-endian 32-bit value, byte 8 with bit 0 (EOM) set,
bytes 9-11 = 0, then the payload, then zero bytes of padding so the total
frame length is a multiple of 4. -/
theorem dev_dep_msg_out_layout (tag : Nat) (p : List Nat)
    (h : p.length < 4294967296) :
    (devDepMsgOut tag p).take 4 = [1, tag, 255 - tag, 0] ∧
    ((devDepMsgOut tag p).drop 4).take 4 = toLE32 p.length ∧
    fromLE32 (((devDepMsgOut tag p).drop 4).take 4) = p.length ∧
    ((devDepMsgOut tag p).drop 8).take 4 = [1, 0, 0, 0] ∧
    (devDepMsgOut tag p).drop 12 = p ++ List.replicate (padLen p.length) 0 ∧
    (devDepMsgOut tag p).length % 4 = 0 := by
  refine ⟨?_, ?_, ?_, ?_, ?_, ?_⟩
  · simp [devDepMsgOut, toLE32]
  · simp [devDepMsgOut, toLE32]
  · simpa [devDepMsgOut, toLE32] using fromLE32_toLE32 p.length h
  · simp [devDepMsgOut, toLE32]
  · simp [devDepMsgOut, toLE32]
  · simp only [devDepMsgOut, List.length_append, List.length_cons,
      List.length_nil, toLE32, List.length_replicate, padLen]
    omega

/-- Witness for C2 at tag 5 and payload [65, 66, 67]. -/
theorem dev_dep_msg_out_layout_witness :
    fromLE32 (((devDepMsgOut 5 [65, 66, 67]).drop 4).take 4) = 3 ∧
    (devDepMsgOut 5 [65, 66, 67]).drop 12 =
      [65, 66, 67] ++ List.replicate (padLen 3) 0 ∧
    (devDepMsgOut 5 [65, 66, 67]).length % 4 = 0 :=
  ⟨(dev_dep_msg_out_layout 5 [65, 66, 67] (by decide)).2.2.1,
   (dev_dep_msg_out_layout 5 [65, 66, 67] (by decide)).2.2.2.2.1,
   (dev_dep_msg_out_layout 5 [65, 66, 67] (by decide)).2.2.2.2.2⟩

/-- C8: whenever the capabilities report no term-char support, the
REQUEST_DEV_DEP_MSG_IN frame leaves its term-char-enabled bit
(bmTransferAttributes, byte 8) at 0 regardless of any configured term-char
value. -/
theorem request_term_char_gated (tag size : Nat) (tc : Option Nat)
    (caps : Capabilities) (h : caps.termChar = false) :
    ((requestDevDepMsgIn tag size tc caps).drop 8).take 1 = [0] := by
  simp [requestDevDepMsgIn, toLE32, h]

/-- Witness for C8: no term-char support, yet a term character 10 is
configured; the frame's byte 8 is still 0. -/
theorem request_term_char_gated_witness :
    (Capabilities.mk false false false).termChar = false ∧
    ((requestDevDepMsgIn 1 64 (some 10)
      (Capabilities.mk false false false)).drop 8).take 1 = [0] :=
  ⟨rfl, request_term_char_gated 1 64 (some 10) (Capabilities.mk false false false) rfl⟩

/-- One inbound DEV_DEP_MSG_IN response as the read path sees it after
header parsing: the echoed bTag, the EOM bit of bmTransferAttributes, and
the TransferSize bytes of payload (padding already stripped by the
header-declared length). -/
structure InFrame where
  tag : Nat
  eom : Bool
  payload : List Nat
deriving DecidableEq, Repr

/-- Modelled from the spec: the bulk-in read reassembly loop
(`communication::bulk::read`, not available under `src/`).  Per iteration it
obtains the next sequence tag and issues a REQUEST_DEV_DEP_MSG_IN, then
reads one response frame: a response tag that differs from the request's
fails with TagMismatch; otherwise the payload is appended and, unless the
frame's EOM bit is set, the loop repeats with a fresh tag.  The device's
behaviour is the list of frames it will answer with, in order; running out
of frames stands for a device that never answers the next request, which
surfaces as Timeout.  Returns the result, the tag state after the loop, and
how many REQUEST_DEV_DEP_MSG_IN frames were issued. -/
def readLoop : BTag → List InFrame → List Nat →
    Except Error (List Nat) × BTag × Nat
  | b, [], _acc => (Except.error Error.timeout, (b.next).2, 1)
  | b, f :: rest, acc =>
    if f.tag = (b.next).1 then
      if f.eom = true then (Except.ok (acc ++ f.payload), (b.next).2, 1)
      else
        let r := readLoop (b.next).2 rest (acc ++ f.payload)
        (r.1, r.2.1, r.2.2 + 1)
    else (Except.error Error.tagMismatch, (b.next).2, 1)

/-- The response frames carry exactly the tags the loop's successive
requests will use, starting from tag state `b`. -/
def wellTagged (b : BTag) : List InFrame → Bool
  | [] => true
  | f :: rest => f.tag == (b.next).1 && wellTagged ((b.next).2) rest

/-- The payloads of the frames up to and including the first EOM frame,
concatenated in arrival order. -/
def assembled : List InFrame → List Nat
  | [] => []
  | f :: rest => if f.eom = true then f.payload else f.payload ++ assembled rest

theorem readLoop_result (b : BTag) (frames : List InFrame) (acc : List Nat)
    (h : wellTagged b frames = true) :
    (readLoop b frames acc).1 =
      if frames.any (fun f => f.eom) = true then
        Except.ok (acc ++ assembled frames)
      else Except.error Error.timeout := by
  induction frames generalizing b acc with
  | nil => simp [readLoop, assembled]
  | cons f rest ih =>
    simp only [wellTagged, Bool.and_eq_true, beq_iff_eq] at h
    obtain ⟨h1, h2⟩ := h
    by_cases he : f.eom = true
    · simp [readLoop, h1, he, assembled]
    · have hb : f.eom = false := by simpa using he
      simp [readLoop, h1, hb, assembled, ih ((b.next).2) (acc ++ f.payload) h2,
        List.append_assoc]

/-- C1: for every well-tagged sequence of inbound DEV_DEP_MSG_IN frames the
read path appends each frame's payload in arrival order and returns exactly
once, when (and only when) a frame with the End-Of-Message bit set is
observed; without an EOM frame it times out instead of returning. -/
theorem read_reassembles_until_eom (b : BTag) (frames : List InFrame)
    (h : wellTagged b frames = true) :
    (readLoop b frames []).1 =
      if frames.any (fun f => f.eom) = true then Except.ok (assembled frames)
      else Except.error Error.timeout := by
  simpa using readLoop_result b frames [] h

/-- Three concrete frames whose EOM bits are false, false, true. -/
def framesThree : List InFrame :=
  [⟨1, false, [10]⟩, ⟨2, false, [11, 12]⟩, ⟨3, true, [13]⟩]

/-- Witness for C1: three frames with EOM bits false, false, true yield the
concatenation of all three payloads after the third frame. -/
theorem read_reassembles_until_eom_witness :
    wellTagged BTag.new framesThree = true ∧
    (readLoop BTag.new framesThree []).1 = Except.ok [10, 11, 12, 13] :=
  ⟨rfl, Eq.trans (read_reassembles_until_eom BTag.new framesThree rfl) rfl⟩

/-- C6: an inbound response whose bTag differs from the tag of the request
just issued makes the read path fail with TagMismatch; no payload is
returned. -/
theorem read_tag_mismatch (b : BTag) (f : InFrame) (rest : List InFrame)
    (h : f.tag ≠ (b.next).1) :
    (readLoop b (f :: rest) []).1 = Except.error Error.tagMismatch := by
  simp [readLoop, h]

/-- Witness for C6: the first request carries tag 1 but the response echoes
tag 7, so the read fails with TagMismatch. -/
theorem read_tag_mismatch_witness :
    (InFrame.mk 7 true [1]).tag ≠ ((BTag.new).next).1 ∧
    (readLoop BTag.new [InFrame.mk 7 true [1]] []).1 =
      Except.error Error.tagMismatch :=
  ⟨by decide, read_tag_mismatch BTag.new (InFrame.mk 7 true [1]) [] (by decide)⟩

/-- A UTF-8 continuation byte (0x80..0xBF). -/
def contByte (b : Nat) : Bool := 128 ≤ b && b ≤ 191

/-- Strict UTF-8 decoding of a byte list into Unicode code points, as Rust's
`std::str::from_utf8` accepts it: shortest-form encodings only, surrogates
(U+D800..U+DFFF) and code points above U+10FFFF rejected.  `none` models the
`Utf8Error` failure. -/
def decodeUtf8 : List Nat → Option (List Nat)
  | [] => some []
  | b0 :: rest =>
    if b0 ≤ 127 then
      match decodeUtf8 rest with
      | some cps => some (b0 :: cps)
      | none => none
    else if b0 ≤ 193 then none
    else if b0 ≤ 223 then
      match rest with
      | b1 :: rest2 =>
        if contByte b1 then
          match decodeUtf8 rest2 with
          | some cps => some (((b0 - 192) * 64 + (b1 - 128)) :: cps)
          | none => none
        else none
      | [] => none
    else if b0 ≤ 239 then
      match rest with
      | b1 :: b2 :: rest3 =>
        if (if b0 = 224 then 160 else 128) ≤ b1 &&
            b1 ≤ (if b0 = 237 then 159 else 191) && contByte b2 then
          match decodeUtf8 rest3 with
          | some cps =>
            some (((b0 - 224) * 4096 + (b1 - 128) * 64 + (b2 - 128)) :: cps)
          | none => none
        else none
      | _ => none
    else if b0 ≤ 244 then
      match rest with
      | b1 :: b2 :: b3 :: rest4 =>
        if (if b0 = 240 then 144 else 128) ≤ b1 &&
            b1 ≤ (if b0 = 244 then 143 else 191) &&
            contByte b2 && contByte b3 then
          match decodeUtf8 rest4 with
          | some cps =>
            some (((b0 - 240) * 262144 + (b1 - 128) * 4096 +
              (b2 - 128) * 64 + (b3 - 128)) :: cps)
          | none => none
        else none
      | _ => none
    else none

/-- Unicode White_Space code points, the set Rust's `char::is_whitespace`
tests (what `str::trim` strips). -/
def isRustWhitespace (c : Nat) : Bool :=
  (9 ≤ c && c ≤ 13) || c == 32 || c == 133 || c == 160 || c == 5760 ||
    (8192 ≤ c && c ≤ 8202) || c == 8232 || c == 8233 || c == 8239 ||
    c == 8287 || c == 12288

/-- Leading whitespace removed (Rust `str::trim_start`). -/
def rustTrimStart (l : List Nat) : List Nat := l.dropWhile isRustWhitespace

/-- Trailing whitespace removed (Rust `str::trim_end`). -/
def rustTrimEnd (l : List Nat) : List Nat :=
  (l.reverse.dropWhile isRustWhitespace).reverse

/-- Rust `str::trim`: whitespace removed from both ends, as
`UsbtmcClient::query` applies it to the decoded response. -/
def rustTrim (l : List Nat) : List Nat := rustTrimEnd (rustTrimStart l)

/-- The session state `UsbtmcClient` holds, as far as the bulk message paths
read and write it: the sequence tag state, the capability snapshot, and the
device's pending bulk-in response frames (the fixed transport behaviour;
the handle, endpoint addresses and timeout are transport-level values the
embedding elides). -/
structure Session where
  btag : BTag
  capabilities : Capabilities
  frames : List InFrame
deriving DecidableEq, Repr

/-- Modelled from the spec: `communication::bulk::write` obtains the next
sequence tag and submits the payload as one EOM-terminated DEV_DEP_MSG_OUT
frame.  Returns the framed bytes and the advanced tag state. -/
def write (b : BTag) (payload : List Nat) : List Nat × BTag :=
  (devDepMsgOut ((b.next).1) payload, (b.next).2)

/-- `UsbtmcClient::command` (src/lib.rs lines 172-185): send the command via
one bulk write; nothing is read back. -/
def command (s : Session) (cmd : List Nat) : Except Error Unit × Session :=
  let w := write s.btag cmd
  (Except.ok (), { s with btag := w.2 })

/-- `UsbtmcClient::query_raw` (src/lib.rs lines 195-218): send the command
via one bulk write, then run the bulk read and return the reassembled bytes
undecoded. -/
def query_raw (s : Session) (cmd : List Nat) :
    Except Error (List Nat) × Session :=
  let w := write s.btag cmd
  let r := readLoop w.2 s.frames []
  (r.1, { s with btag := r.2.1 })

/-- `UsbtmcClient::query` (src/lib.rs lines 228-254): send the command via
one bulk write, run the bulk read, then decode the bytes as UTF-8 (failing
with the encoding error on invalid UTF-8) and trim whitespace from both
ends with `str::trim`. -/
def query (s : Session) (cmd : List Nat) : Except Error (List Nat) × Session :=
  let w := write s.btag cmd
  let r := readLoop w.2 s.frames []
  match r.1 with
  | Except.error e => (Except.error e, { s with btag := r.2.1 })
  | Except.ok bytes =>
    match decodeUtf8 bytes with
    | none => (Except.error Error.encodingError, { s with btag := r.2.1 })
    | some cps => (Except.ok (rustTrim cps), { s with btag := r.2.1 })

theorem query_eq_decode_of_raw (s : Session) (cmd : List Nat) :
    (query s cmd).1 =
      (match (query_raw s cmd).1 with
       | Except.error e => Except.error e
       | Except.ok bytes =>
         match decodeUtf8 bytes with
         | none => Except.error Error.encodingError
         | some cps => Except.ok (rustTrim cps)) := by
  simp only [query, query_raw]
  cases h1 : (readLoop (write s.btag cmd).2 s.frames []).1 with
  | error e => simp [h1]
  | ok bytes =>
    cases h2 : decodeUtf8 bytes with
    | none => simp [h1, h2]
    | some cps => simp [h1, h2]

theorem query_session_eq_query_raw_session (s : Session) (cmd : List Nat) :
    (query s cmd).2 = (query_raw s cmd).2 := by
  simp only [query, query_raw]
  cases h1 : (readLoop (write s.btag cmd).2 s.frames []).1 with
  | error e => simp [h1]
  | ok bytes =>
    cases h2 : decodeUtf8 bytes with
    | none => simp [h1, h2]
    | some cps => simp [h1, h2]

/-- C7 (amended): `query` performs the bulk write followed by the bulk read
exactly as `query_raw` does, decodes the response bytes as UTF-8 — failing
with the encoding error when they are not valid UTF-8 — and trims whitespace
from both ends (not only the trailing end) of the decoded string. -/
theorem query_decodes_utf8_and_trims (s : Session) (cmd : List Nat) :
    (query s cmd).1 =
      (match (query_raw s cmd).1 with
       | Except.error e => Except.error e
       | Except.ok bytes =>
         match decodeUtf8 bytes with
         | none => Except.error Error.encodingError
         | some cps => Except.ok (rustTrim cps)) :=
  query_eq_decode_of_raw s cmd

/-- A session whose device answers with the single EOM frame " X"
(a leading space, then the letter X). -/
def sessionSpace : Session :=
  ⟨BTag.new, ⟨false, false, false⟩, [⟨2, true, [32, 88]⟩]⟩

/-- Counterexample for C7 as stated: on the response " X" the code returns
"X" (both ends trimmed, `str::trim`), while a trailing-whitespace-only trim
of the decoded bytes keeps the leading space. -/
theorem query_trailing_trim_cex :
    (query sessionSpace [42]).1 = Except.ok [88] ∧
    rustTrimEnd [32, 88] = [32, 88] ∧
    ([88] : List Nat) ≠ [32, 88] :=
  ⟨rfl, rfl, by decide⟩

/-- C10: `query` succeeds exactly when `query_raw` succeeds from the same
session state with bytes that are valid UTF-8, and in that case `query`
returns the decoded code points with whitespace removed from both ends. -/
theorem query_refines_query_raw (s : Session) (cmd : List Nat) :
    ((∃ t, (query s cmd).1 = Except.ok t) ↔
      (∃ bytes, (query_raw s cmd).1 = Except.ok bytes ∧
        (decodeUtf8 bytes).isSome = true)) ∧
    (∀ bytes cps, (query_raw s cmd).1 = Except.ok bytes →
      decodeUtf8 bytes = some cps →
      (query s cmd).1 = Except.ok (rustTrim cps)) := by
  have h := query_eq_decode_of_raw s cmd
  constructor
  · constructor
    · rintro ⟨t, ht⟩
      rw [h] at ht
      cases h1 : (query_raw s cmd).1 with
      | error e => rw [h1] at ht; simp at ht
      | ok bytes =>
        rw [h1] at ht
        cases h2 : decodeUtf8 bytes with
        | none => simp [h2] at ht
        | some cps => exact ⟨bytes, rfl, by rw [h2]; rfl⟩
    · rintro ⟨bytes, hb, hs⟩
      rw [h, hb]
      obtain ⟨cps, hc⟩ := Option.isSome_iff_exists.mp hs
      exact ⟨rustTrim cps, by simp [hc]⟩
  · intro bytes cps hb hc
    rw [h, hb]
    simp [hc]

/-- One advance of the sequence tag state (the state `next` leaves behind). -/
def advance (b : BTag) : BTag := (b.next).2

theorem readLoop_tag_count (b : BTag) (frames : List InFrame) (acc : List Nat) :
    (readLoop b frames acc).2.1 = advance^[(readLoop b frames acc).2.2] b ∧
    1 ≤ (readLoop b frames acc).2.2 := by
  induction frames generalizing b acc with
  | nil => simp [readLoop, advance]
  | cons f rest ih =>
    by_cases h1 : f.tag = (b.next).1
    · by_cases he : f.eom = true
      · simp [readLoop, h1, he, advance]
      · have hb : f.eom = false := by simpa using he
        obtain ⟨ih1, ih2⟩ := ih ((b.next).2) (acc ++ f.payload)
        constructor
        · simp only [readLoop, h1, hb, if_true, if_false, ite_true, ite_false,
            Bool.false_eq_true, if_pos rfl]
          rw [Function.iterate_succ_apply]
          exact ih1
        · simp only [readLoop, h1, hb, ite_true, ite_false, Bool.false_eq_true,
            if_pos rfl]
          omega
    · simp [readLoop, h1, advance]

/-- C4 (amended): `command` advances the session's sequence tag state
exactly once (for its single bulk write), while `query` and `query_raw`
advance it once for the write plus once per REQUEST_DEV_DEP_MSG_IN issued
during the read — at least twice in total, never exactly once. -/
theorem tag_advances_per_call (s : Session) (cmd : List Nat) :
    (command s cmd).2.btag = advance s.btag ∧
    (∃ k, 1 ≤ k ∧ (query_raw s cmd).2.btag = advance^[k + 1] s.btag) ∧
    (∃ k, 1 ≤ k ∧ (query s cmd).2.btag = advance^[k + 1] s.btag) := by
  obtain ⟨hc, hk⟩ := readLoop_tag_count ((s.btag.next).2) s.frames []
  have hraw : (query_raw s cmd).2.btag =
      advance^[(readLoop ((s.btag.next).2) s.frames []).2.2 + 1] s.btag := by
    rw [Function.iterate_succ_apply]
    exact hc
  refine ⟨rfl, ⟨_, hk, hraw⟩, ⟨_, hk, ?_⟩⟩
  rw [query_session_eq_query_raw_session]
  exact hraw

/-- A session whose device answers the first read request with one EOM
frame. -/
def sessionSingle : Session :=
  ⟨BTag.new, ⟨false, false, false⟩, [⟨2, true, [65]⟩]⟩

/-- Counterexample for C4 as stated: one `query_raw` call against a
single-frame response advances the tag state from 1 to 3 (write plus one
read request), not to 2 as a single advance would. -/
theorem tag_advance_cex :
    (query_raw sessionSingle [42]).2.btag = BTag.mk 3 ∧
    advance sessionSingle.btag = BTag.mk 2 ∧
    BTag.mk 3 ≠ BTag.mk 2 :=
  ⟨rfl, rfl, by decide⟩

/-- Record of how the device was found configured during connect
(`DeviceMode` in the `types` module): configuration, interface and
alternate-setting numbers plus whether a kernel driver was originally
attached to the interface. -/
structure DeviceMode where
  configNumber : Nat
  interfaceNumber : Nat
  settingNumber : Nat
  hasKernelDriver : Bool
deriving DecidableEq, Repr

/-- The transport-level operations `connect` and the teardown issue, in
the order `src/lib.rs` issues them. -/
inductive UsbOp where
  | openDevice
  | getUsbtmcMode
  | detachKernelDriver
  | getEndpoints
  | setActiveConfiguration
  | claimInterface
  | setAlternateSetting
  | getCapabilities
  | clearBuffers
  | clearFeatureBulkOut
  | clearFeatureBulkIn
  | releaseInterface
  | attachKernelDriver
deriving DecidableEq, Repr

/-- Which of connect's sub-steps the transport lets succeed: the external
collaborator's behaviour for one connect attempt. -/
structure ConnectEnv where
  openOk : Bool
  modeOk : Bool
  detachOk : Bool
  endpointsOk : Bool
  setConfigOk : Bool
  claimOk : Bool
  setAltOk : Bool
  capabilitiesOk : Bool
  clearBuffersOk : Bool
  clearFeatureOutOk : Bool
  clearFeatureInOk : Bool
deriving DecidableEq, Repr

/-- `UsbtmcClient::connect` (src/lib.rs lines 95-152) as the sequence of
transport operations it issues: open the device, read the USBTMC mode,
detach the kernel driver, resolve endpoints, set the configuration, claim
the interface, set the alternate setting, query capabilities, clear the
buffers, clear both endpoint halts.  Each step's `?` aborts the sequence
with that step's error; the success value stands for the fully built
client.  No error path issues any further transport operation: in the
source the claimed interface is only ever released by `Drop for
UsbtmcClient`, which cannot run here because no client value was built. -/
def connect (env : ConnectEnv) : Except Error Unit × List UsbOp :=
  if !env.openOk then
    (Except.error Error.deviceNotFound, [UsbOp.openDevice])
  else if !env.modeOk then
    (Except.error Error.unsupportedDevice,
      [UsbOp.openDevice, UsbOp.getUsbtmcMode])
  else if !env.detachOk then
    (Except.error Error.transportError,
      [UsbOp.openDevice, UsbOp.getUsbtmcMode, UsbOp.detachKernelDriver])
  else if !env.endpointsOk then
    (Except.error Error.transportError,
      [UsbOp.openDevice, UsbOp.getUsbtmcMode, UsbOp.detachKernelDriver,
       UsbOp.getEndpoints])
  else if !env.setConfigOk then
    (Except.error Error.transportError,
      [UsbOp.openDevice, UsbOp.getUsbtmcMode, UsbOp.detachKernelDriver,
       UsbOp.getEndpoints, UsbOp.setActiveConfiguration])
  else if !env.claimOk then
    (Except.error Error.transportError,
      [UsbOp.openDevice, UsbOp.getUsbtmcMode, UsbOp.detachKernelDriver,
       UsbOp.getEndpoints, UsbOp.setActiveConfiguration,
       UsbOp.claimInterface])
  else if !env.setAltOk then
    (Except.error Error.transportError,
      [UsbOp.openDevice, UsbOp.getUsbtmcMode, UsbOp.detachKernelDriver,
       UsbOp.getEndpoints, UsbOp.setActiveConfiguration, UsbOp.claimInterface,
       UsbOp.setAlternateSetting])
  else if !env.capabilitiesOk then
    (Except.error Error.transportError,
      [UsbOp.openDevice, UsbOp.getUsbtmcMode, UsbOp.detachKernelDriver,
       UsbOp.getEndpoints, UsbOp.setActiveConfiguration, UsbOp.claimInterface,
       UsbOp.setAlternateSetting, UsbOp.getCapabilities])
  else if !env.clearBuffersOk then
    (Except.error Error.transportError,
      [UsbOp.openDevice, UsbOp.getUsbtmcMode, UsbOp.detachKernelDriver,
       UsbOp.getEndpoints, UsbOp.setActiveConfiguration, UsbOp.claimInterface,
       UsbOp.setAlternateSetting, UsbOp.getCapabilities, UsbOp.clearBuffers])
  else if !env.clearFeatureOutOk then
    (Except.error Error.transportError,
      [UsbOp.openDevice, UsbOp.getUsbtmcMode, UsbOp.detachKernelDriver,
       UsbOp.getEndpoints, UsbOp.setActiveConfiguration, UsbOp.claimInterface,
       UsbOp.setAlternateSetting, UsbOp.getCapabilities, UsbOp.clearBuffers,
       UsbOp.clearFeatureBulkOut])
  else if !env.clearFeatureInOk then
    (Except.error Error.transportError,
      [UsbOp.openDevice, UsbOp.getUsbtmcMode, UsbOp.detachKernelDriver,
       UsbOp.getEndpoints, UsbOp.setActiveConfiguration, UsbOp.claimInterface,
       UsbOp.setAlternateSetting, UsbOp.getCapabilities, UsbOp.clearBuffers,
       UsbOp.clearFeatureBulkOut, UsbOp.clearFeatureBulkIn])
  else
    (Except.ok (),
      [UsbOp.openDevice, UsbOp.getUsbtmcMode, UsbOp.detachKernelDriver,
       UsbOp.getEndpoints, UsbOp.setActiveConfiguration, UsbOp.claimInterface,
       UsbOp.setAlternateSetting, UsbOp.getCapabilities, UsbOp.clearBuffers,
       UsbOp.clearFeatureBulkOut, UsbOp.clearFeatureBulkIn])

/-- The transport behaviour in which every connect sub-step up to and
including claiming the interface succeeds and the capability query fails. -/
def capFailEnv : ConnectEnv :=
  ⟨true, true, true, true, true, true, true, false, true, true, true⟩

/-- C5: when the capability query fails after the interface has been
claimed, `connect` propagates the error without any partial client — but
contrary to the claim it issues no release of the claimed interface on the
way out (only `Drop for UsbtmcClient` releases, and no client exists). -/
theorem connect_cap_failure_no_release :
    (connect capFailEnv).1 = Except.error Error.transportError ∧
    UsbOp.claimInterface ∈ (connect capFailEnv).2 ∧
    UsbOp.releaseInterface ∉ (connect capFailEnv).2 :=
  ⟨rfl, by decide, by decide⟩

/-- `Drop for UsbtmcClient` (src/lib.rs lines 257-273): release the claimed
interface, then reattach the kernel driver exactly when `DeviceMode`
recorded one as originally attached.  Each step's `expect` panics on
failure, so a failed release aborts before any reattach.  `releaseOk` and
`attachOk` are the transport's outcomes; the result is whether the teardown
panicked, plus the operations it issued. -/
def dropClient (mode : DeviceMode) (releaseOk attachOk : Bool) :
    Bool × List UsbOp :=
  if !releaseOk then (true, [UsbOp.releaseInterface])
  else if mode.hasKernelDriver then
    if !attachOk then (true, [UsbOp.releaseInterface, UsbOp.attachKernelDriver])
    else (false, [UsbOp.releaseInterface, UsbOp.attachKernelDriver])
  else (false, [UsbOp.releaseInterface])

/-- C9: teardown always issues the interface release; when the release
succeeds it reattaches the kernel driver exactly when one was originally
attached as recorded in `DeviceMode`; and the teardown panics (is fatal)
precisely when the release fails or a required reattach fails. -/
theorem drop_releases_and_conditionally_reattaches (mode : DeviceMode)
    (releaseOk attachOk : Bool) :
    UsbOp.releaseInterface ∈ (dropClient mode releaseOk attachOk).2 ∧
    (releaseOk = true →
      (UsbOp.attachKernelDriver ∈ (dropClient mode releaseOk attachOk).2 ↔
        mode.hasKernelDriver = true)) ∧
    ((dropClient mode releaseOk attachOk).1 = true ↔
      (releaseOk = false ∨
        (mode.hasKernelDriver = true ∧ attachOk = false))) := by
  obtain ⟨c, i, st, hk⟩ := mode
  cases hk <;> cases releaseOk <;> cases attachOk <;>
    simp [dropClient]

end Usbtmc
